import Mathlib

/-!
Verification of the `form-data-builder` multipart/form-data document builder.

The development shallowly embeds `src/lib.rs`:
* the byte sink (`W: Write`) becomes a `Sink` type class over a state type;
  the `Vec<u8>` sink used by the tests is `List Nat` with infallible writes;
* each Rust `write!` invocation becomes one `Sink.write` of the UTF-8 bytes
  of the formatted string (`bytes`);
* `FormData { writer: Option<W>, boundary: String }` becomes the `FormData`
  structure; `Result<T, std::io::Error>` becomes `Except IoError T` with the
  state threaded alongside, since Rust methods take `&mut self` and leave the
  builder observable after an error;
* file readers become the full byte list they produce, `std::fs` becomes an
  explicit map from paths to file contents, and `Path::file_name` is modelled
  from its documented behaviour (`fileName`);
* boundary generation (`FormData::new`) is parametrised by the wall-clock
  nanoseconds/seconds and the 12 random bytes it consumes.
-/

namespace FormDataBuilder

/-- UTF-8 encoding of a single Unicode code point, as byte values. -/
def utf8Char (c : Nat) : List Nat :=
  if c < 0x80 then [c]
  else if c < 0x800 then [0xC0 ||| (c >>> 6), 0x80 ||| (c &&& 0x3F)]
  else if c < 0x10000 then
    [0xE0 ||| (c >>> 12), 0x80 ||| ((c >>> 6) &&& 0x3F), 0x80 ||| (c &&& 0x3F)]
  else
    [0xF0 ||| (c >>> 18), 0x80 ||| ((c >>> 12) &&& 0x3F),
     0x80 ||| ((c >>> 6) &&& 0x3F), 0x80 ||| (c &&& 0x3F)]

/-- The UTF-8 bytes of a string: what one Rust `write!` of that string emits. -/
def bytes (s : String) : List Nat := s.data.flatMap (fun c => utf8Char c.toNat)

theorem bytes_append (s t : String) : bytes (s ++ t) = bytes s ++ bytes t := by
  simp [bytes, String.data_append]

/-- The `std::io::ErrorKind` values this crate can produce or observe. -/
inductive ErrorKind
  | notFound
  | brokenPipe
  | other
deriving DecidableEq, Repr

/-- A `std::io::Error`: a kind plus its message. -/
structure IoError where
  kind : ErrorKind
  msg : String
deriving DecidableEq, Repr

/-- The error built by `write_header` when `self.writer` is `None`
(src/lib.rs lines 103-108). -/
def alreadyFinishedWrite : IoError :=
  ⟨.other, "this method cannot be used after using `finish()`"⟩

/-- The error built by `finish` when `self.writer` is `None`
(src/lib.rs line 92). -/
def alreadyFinishedFinish : IoError :=
  ⟨.other, "you can only finish once"⟩

/-- The operating-system error `File::open` reports for a missing path. -/
def notFoundError : IoError :=
  ⟨.notFound, "No such file or directory"⟩

/-- A byte sink: the `W: Write` bound. `write` either appends the given
bytes to the sink state and succeeds, or fails writing nothing. -/
class Sink (σ : Type) where
  write : σ → List Nat → Except IoError σ

/-- `struct FormData<W> { writer: Option<W>, boundary: String }`
(src/lib.rs lines 34-38). -/
structure FormData (σ : Type) where
  writer : Option σ
  boundary : String
deriving DecidableEq

/-- The `Vec<u8>` sink: a byte list; writing appends and never fails. -/
instance : Sink (List Nat) := ⟨fun w c => .ok (w ++ c)⟩

@[simp] theorem sink_write_vec (w c : List Nat) :
    Sink.write w c = Except.ok (w ++ c) := rfl

/-- A sink whose every write fails, as a `W` whose `write` returns
`ErrorKind::BrokenPipe`. -/
inductive Broken
  | pipe
deriving DecidableEq

instance : Sink Broken := ⟨fun _ _ => .error ⟨.brokenPipe, "broken pipe"⟩⟩

/-- Run a sequence of writes, stopping at the first failure and keeping the
sink state reached so far. -/
def writeAll {σ : Type} [Sink σ] (w : σ) : List (List Nat) → σ × Option IoError
  | [] => (w, none)
  | c :: cs =>
    match Sink.write w c with
    | .error e => (w, some e)
    | .ok w2 => writeAll w2 cs

/-- The strings emitted by the successive `write!` calls of
`FormData::write_header` (src/lib.rs lines 110-122), in order: the boundary
line, the `Content-Disposition` header (with the optional `filename`
parameter), its terminating CRLF, the optional `Content-Type` line, and the
blank line before the payload. -/
def headerChunks (b n : String) (filename contentType : Option String) :
    List String :=
  ["--" ++ b ++ "\r\n",
   "Content-Disposition: form-data; name=\"" ++ n ++ "\""]
  ++ (match filename with
      | some f => ["; filename=\"" ++ f ++ "\""]
      | none => [])
  ++ ["\r\n"]
  ++ (match contentType with
      | some c => ["Content-Type: " ++ c ++ "\r\n"]
      | none => [])
  ++ ["\r\n"]

/-- `FormData::write_header` (src/lib.rs lines 97-124): fails without writing
when the builder is finished, otherwise performs the header writes and hands
back the sink for the payload. -/
def write_header {σ : Type} [Sink σ] (fd : FormData σ) (n : String)
    (filename contentType : Option String) : FormData σ × Except IoError σ :=
  match fd.writer with
  | none => (fd, .error alreadyFinishedWrite)
  | some w =>
    match writeAll w ((headerChunks fd.boundary n filename contentType).map bytes) with
    | (w2, some e) => ({ fd with writer := some w2 }, .error e)
    | (w2, none) => ({ fd with writer := some w2 }, .ok w2)

/-- `FormData::write_field` (src/lib.rs lines 140-143): header with no
filename and no content type, then one write of the value followed by CRLF. -/
def write_field {σ : Type} [Sink σ] (fd : FormData σ) (n v : String) :
    FormData σ × Except IoError Unit :=
  match write_header fd n none none with
  | (fd2, .error e) => (fd2, .error e)
  | (fd2, .ok w) =>
    match Sink.write w (bytes (v ++ "\r\n")) with
    | .error e => (fd2, .error e)
    | .ok w2 => ({ fd2 with writer := some w2 }, .ok ())

/-- `FormData::write_file` (src/lib.rs lines 168-178): header with the given
filename and content type, then `std::io::copy` of the reader bytes, then a
trailing CRLF. The reader is modelled by the byte list it yields. -/
def write_file {σ : Type} [Sink σ] (fd : FormData σ) (n : String)
    (reader : List Nat) (filename : Option String) (contentType : String) :
    FormData σ × Except IoError Unit :=
  match write_header fd n filename (some contentType) with
  | (fd2, .error e) => (fd2, .error e)
  | (fd2, .ok w) =>
    match Sink.write w reader with
    | .error e => (fd2, .error e)
    | .ok w2 =>
      match Sink.write w2 (bytes "\r\n") with
      | .error e => ({ fd2 with writer := some w2 }, .error e)
      | .ok w3 => ({ fd2 with writer := some w3 }, .ok ())

/-- Split a character list at every `/`. -/
def splitOnSlash : List Char → List (List Char)
  | [] => [[]]
  | c :: cs =>
    let r := splitOnSlash cs
    if c = '/' then [] :: r
    else
      match r with
      | [] => [[c]]
      | g :: gs => (c :: g) :: gs

/-- Modelled from the spec: the file-system accessor `Path::file_name`, which
is std library code and not part of src/. Per its documentation it yields the
final non-empty, non-`.` component of the path, and nothing when the path is
a root or terminates in `..`. -/
def fileName (path : String) : Option String :=
  let comps :=
    (splitOnSlash path.data).filter (fun g => !g.isEmpty && !(g == ['.']))
  match comps.getLast? with
  | none => none
  | some g => if g = ['.', '.'] then none else some (String.mk g)

/-- `FormData::write_path` (src/lib.rs lines 197-209): `File::open` runs
first (its `?` propagates an open failure before `write_file` is entered),
the filename is derived from the final path component, and the rest is
`write_file`. The file system is a map from paths to file contents. -/
def write_path {σ : Type} [Sink σ] (fd : FormData σ) (n : String)
    (fs : String → Option (List Nat)) (path : String) (contentType : String) :
    FormData σ × Except IoError Unit :=
  match fs path with
  | none => (fd, .error notFoundError)
  | some content => write_file fd n content (fileName path) contentType

/-- `FormData::finish` (src/lib.rs lines 88-95): `self.writer.take()` first
(leaving `None` behind), then one write of the terminal marker, returning the
sink on success. -/
def finish {σ : Type} [Sink σ] (fd : FormData σ) :
    FormData σ × Except IoError σ :=
  match fd.writer with
  | none => (fd, .error alreadyFinishedFinish)
  | some w =>
    match Sink.write w (bytes ("--" ++ fd.boundary ++ "--\r\n")) with
    | .error e => ({ fd with writer := none }, .error e)
    | .ok w2 => ({ fd with writer := none }, .ok w2)

/-- `FormData::content_type_header` (src/lib.rs lines 224-226). -/
def content_type_header {σ : Type} (fd : FormData σ) : String :=
  "multipart/form-data; boundary=" ++ fd.boundary

/-- The URL-safe base64 alphabet used by `base64::URL_SAFE`. -/
def b64Alphabet : List Char :=
  "ABCDEFGHIJKLMNOPQRSTUVWXYZabcdefghijklmnopqrstuvwxyz0123456789-_".data

/-- The alphabet character for a 6-bit group. -/
def b64Char (n : Nat) : Char := b64Alphabet.getD n 'A'

/-- Base64 encoding of a byte list, three input bytes to four output
characters, `=`-padded on a final short group (`base64::URL_SAFE` pads). -/
def b64Groups : List Nat → List Char
  | [] => []
  | [a] => [b64Char (a >>> 2), b64Char ((a &&& 3) <<< 4), '=', '=']
  | [a, b] =>
    [b64Char (a >>> 2), b64Char (((a &&& 3) <<< 4) ||| (b >>> 4)),
     b64Char ((b &&& 15) <<< 2), '=']
  | a :: b :: c :: rest =>
    b64Char (a >>> 2) :: b64Char (((a &&& 3) <<< 4) ||| (b >>> 4)) ::
    b64Char (((b &&& 15) <<< 2) ||| (c >>> 6)) :: b64Char (c &&& 63) ::
    b64Groups rest

/-- The `n` little-endian bytes of `x`, as `to_ne_bytes` yields them on a
little-endian machine. -/
def natToLeBytes : Nat → Nat → List Nat
  | 0, _ => []
  | n + 1, x => (x % 256) :: natToLeBytes n (x / 256)

/-- The Rust format `{:->68}`: left-fill with `-` up to width 68. -/
def padDash68 (cs : List Char) : String :=
  String.mk (List.replicate (68 - cs.length) '-' ++ cs)

/-- `FormData::new` (src/lib.rs lines 55-71), parametrised by the
sub-second nanoseconds and whole seconds of the current time and the 12
random bytes drawn from `thread_rng`: the 24-byte buffer is the 4 bytes of
`subsec_nanos`, the 8 bytes of `as_secs`, then the random bytes, and the
boundary is its padded URL-safe base64 encoding. -/
def new {σ : Type} (w : σ) (nanos secs : Nat) (rand : List Nat) :
    FormData σ :=
  { writer := some w
  , boundary :=
      padDash68 (b64Groups
        (natToLeBytes 4 nanos ++ natToLeBytes 8 secs ++ rand)) }

theorem natToLeBytes_length (n x : Nat) : (natToLeBytes n x).length = n := by
  induction n generalizing x with
  | zero => rfl
  | succ n ih => simp [natToLeBytes, ih]

theorem b64Groups_length (l : List Nat) :
    (b64Groups l).length = 4 * ((l.length + 2) / 3) := by
  match l with
  | [] => rfl
  | [_] => simp [b64Groups]
  | [_, _] => simp [b64Groups]
  | a :: b :: c :: rest =>
    have ih := b64Groups_length rest
    simp only [b64Groups, List.length_cons, ih]
    omega

/-- Claim C2: a successful `write_field` on a non-finalized builder appends
exactly `--{boundary}\r\nContent-Disposition: form-data;
name="{name}"\r\n\r\n{value}\r\n`, with no filename parameter and no
Content-Type line. -/
theorem write_field_bytes (w : List Nat) (b n v : String) :
    write_field (⟨some w, b⟩ : FormData (List Nat)) n v =
      (⟨some (w ++ bytes ("--" ++ b ++ "\r\nContent-Disposition: form-data; name=\"" ++ n
          ++ "\"\r\n\r\n" ++ v ++ "\r\n")), b⟩, .ok ()) := by
  simp [write_field, write_header, headerChunks, writeAll, bytes, utf8Char,
        List.append_assoc]

/-- Claim C3: a successful `write_file` on a non-finalized builder appends
the part header (boundary line; Content-Disposition with the name, plus the
filename parameter exactly when one is supplied; Content-Type line; blank
line), then the reader bytes verbatim, then a trailing CRLF. -/
theorem write_file_bytes (w reader : List Nat) (b n ct : String)
    (filename : Option String) :
    write_file (⟨some w, b⟩ : FormData (List Nat)) n reader filename ct =
      (⟨some (w
          ++ bytes ("--" ++ b ++ "\r\nContent-Disposition: form-data; name=\"" ++ n ++ "\""
              ++ (match filename with
                  | some f => "; filename=\"" ++ f ++ "\""
                  | none => "")
              ++ "\r\nContent-Type: " ++ ct ++ "\r\n\r\n")
          ++ reader ++ bytes "\r\n"), b⟩, .ok ()) := by
  cases filename <;>
    simp [write_file, write_header, headerChunks, writeAll, bytes, utf8Char,
          List.append_assoc]

/-- Claim C5: the first `finish` writes exactly the terminal marker
`--{boundary}--\r\n` and returns the sink; the second call fails with the
"you can only finish once" error and writes nothing. -/
theorem finish_twice (w : List Nat) (b : String) :
    finish (⟨some w, b⟩ : FormData (List Nat)) =
      (⟨none, b⟩, .ok (w ++ bytes ("--" ++ b ++ "--\r\n")))
    ∧ finish (⟨none, b⟩ : FormData (List Nat)) =
      (⟨none, b⟩, .error alreadyFinishedFinish) := by
  constructor
  · simp [finish]
  · rfl

theorem str_length_mk (l : List Char) : (String.mk l).length = l.length := rfl

theorem str_data_mk (l : List Char) : (String.mk l).data = l := rfl

theorem padDash68_spec (cs : List Char) (h : cs.length = 32) :
    (padDash68 cs).length = 68
    ∧ (padDash68 cs).data.take 36 = List.replicate 36 '-'
    ∧ (padDash68 cs).data.drop 36 = cs := by
  have h68 : 68 - cs.length = 36 := by omega
  have htake := List.take_left (List.replicate 36 '-') cs
  have hdrop := List.drop_left (List.replicate 36 '-') cs
  simp only [List.length_replicate] at htake hdrop
  refine ⟨?_, ?_, ?_⟩
  · simp [padDash68, str_length_mk, h68, h]
  · rw [padDash68, str_data_mk, h68]
    exact htake
  · rw [padDash68, str_data_mk, h68]
    exact hdrop

/-- Claim C4: every successful construction yields a boundary of exactly 68
characters whose first 36 characters are all `-`, the URL-safe base64
encoding of the 24-byte time-and-random buffer occupying the final 32
characters. -/
theorem boundary_shape {σ : Type} (w : σ) (nanos secs : Nat)
    (rand : List Nat) (h : rand.length = 12) :
    (new w nanos secs rand).boundary.length = 68
    ∧ (new w nanos secs rand).boundary.data.take 36 = List.replicate 36 '-'
    ∧ (new w nanos secs rand).boundary.data.drop 36 =
        b64Groups (natToLeBytes 4 nanos ++ natToLeBytes 8 secs ++ rand) := by
  have hbuf :
      (natToLeBytes 4 nanos ++ natToLeBytes 8 secs ++ rand).length = 24 := by
    simp [natToLeBytes_length, h]
  have henc :
      (b64Groups (natToLeBytes 4 nanos ++ natToLeBytes 8 secs ++ rand)).length
        = 32 := by
    rw [b64Groups_length, hbuf]
  exact padDash68_spec _ henc

/-- Witness for C4 at a concrete construction. -/
theorem boundary_shape_witness :
    (List.replicate 12 0).length = 12
    ∧ (new ([] : List Nat) 0 0 (List.replicate 12 0)).boundary.length = 68
    ∧ (new ([] : List Nat) 0 0 (List.replicate 12 0)).boundary.data.take 36
        = List.replicate 36 '-'
    ∧ (new ([] : List Nat) 0 0 (List.replicate 12 0)).boundary.data.drop 36
        = b64Groups (natToLeBytes 4 0 ++ natToLeBytes 8 0
            ++ List.replicate 12 0) := by
  have h := boundary_shape ([] : List Nat) 0 0 (List.replicate 12 0)
    (by decide)
  exact ⟨by decide, h.1, h.2.1, h.2.2⟩

/-- Counterexample to claim C6 as stated: on a finished builder,
`write_path` with a path that fails to open reports the open error
(`NotFound`), not the "already finished" error. -/
theorem write_path_after_finish_open_error :
    write_path (⟨none, "B"⟩ : FormData (List Nat)) "f" (fun _ => none)
        "missing.txt" "text/plain"
      = (⟨none, "B"⟩, .error notFoundError)
    ∧ notFoundError ≠ alreadyFinishedWrite := by
  exact ⟨rfl, by decide⟩

/-- Claim C6 amended: after a successful `finish` (writer gone), every
`write_field`, `write_file`, or `write_path` call fails and appends no
bytes; `write_field` and `write_file` always report the "already finished"
error, while `write_path` reports it only when the path opens, and reports
the file-system open error when it does not (the open runs first). -/
theorem writes_after_finish_fail (b n v ct p : String)
    (content : List Nat) (filename : Option String)
    (fs : String → Option (List Nat)) :
    write_field (⟨none, b⟩ : FormData (List Nat)) n v =
      (⟨none, b⟩, .error alreadyFinishedWrite)
    ∧ write_file (⟨none, b⟩ : FormData (List Nat)) n content filename ct =
      (⟨none, b⟩, .error alreadyFinishedWrite)
    ∧ write_path (⟨none, b⟩ : FormData (List Nat)) n fs p ct =
      (⟨none, b⟩, .error
        (match fs p with
         | some _ => alreadyFinishedWrite
         | none => notFoundError)) := by
  refine ⟨rfl, rfl, ?_⟩
  cases hfs : fs p <;> simp [write_path, write_file, write_header, hfs]

/-- Claim C7: `write_path` on a path that does not exist fails with the
file-system not-found open error and leaves the builder (and its sink)
completely unchanged: the open runs before any header byte is written. -/
theorem write_path_missing_file {σ : Type} [Sink σ] (fd : FormData σ)
    (n p ct : String) (fs : String → Option (List Nat)) (h : fs p = none) :
    write_path fd n fs p ct = (fd, .error notFoundError) := by
  simp [write_path, h]

/-- Witness for C7 at a concrete builder and empty file system. -/
theorem write_path_missing_file_witness :
    ((fun _ => none) : String → Option (List Nat)) "nope.png" = none
    ∧ write_path (⟨some [7, 8], "B"⟩ : FormData (List Nat)) "f"
        (fun _ => none) "nope.png" "image/png"
      = (⟨some [7, 8], "B"⟩, .error notFoundError) :=
  ⟨rfl, write_path_missing_file _ "f" "nope.png" "image/png" _ rfl⟩

/-- Counterexample to claim C8 as stated: on a sink whose write of the
terminal marker fails, `finish` nevertheless leaves the builder finalized
(`writer.take()` ran first), so a subsequent operation IS rejected with the
"already finished" error and the builder no longer owns the sink. -/
theorem finish_write_error_counterexample :
    (finish (⟨some Broken.pipe, "B"⟩ : FormData Broken)).2
      = .error ⟨.brokenPipe, "broken pipe"⟩
    ∧ (finish (⟨some Broken.pipe, "B"⟩ : FormData Broken)).1.writer = none
    ∧ (write_field (finish (⟨some Broken.pipe, "B"⟩ : FormData Broken)).1
        "a" "b").2 = .error alreadyFinishedWrite :=
  ⟨rfl, rfl, rfl⟩

/-- Claim C8 amended: `finish` takes the writer out of the builder before
writing the terminal marker, so when that write fails the builder is
finalized anyway: the writer slot is empty, the write error is returned
without the sink, and every subsequent operation fails with the "already
finished" error. -/
theorem finish_write_error_finalizes {σ : Type} [Sink σ] (fd : FormData σ)
    (w : σ) (e : IoError) (n v : String) (h1 : fd.writer = some w)
    (h2 : Sink.write w (bytes ("--" ++ fd.boundary ++ "--\r\n"))
        = .error e) :
    finish fd = ({ fd with writer := none }, .error e)
    ∧ (finish fd).1.writer = none
    ∧ write_field (finish fd).1 n v
        = ((finish fd).1, .error alreadyFinishedWrite) := by
  have hf : finish fd = ({ fd with writer := none }, .error e) := by
    simp [finish, h1, h2]
  refine ⟨hf, by rw [hf], ?_⟩
  rw [hf]
  exact rfl

/-- Witness for the amended C8 at a concrete always-failing sink. -/
theorem finish_write_error_finalizes_witness :
    (⟨some Broken.pipe, "B"⟩ : FormData Broken).writer = some Broken.pipe
    ∧ (finish (⟨some Broken.pipe, "B"⟩ : FormData Broken)
        = (⟨none, "B"⟩, .error ⟨.brokenPipe, "broken pipe"⟩)
      ∧ (finish (⟨some Broken.pipe, "B"⟩ : FormData Broken)).1.writer = none
      ∧ write_field (finish (⟨some Broken.pipe, "B"⟩ : FormData Broken)).1
          "a" "b"
        = ((finish (⟨some Broken.pipe, "B"⟩ : FormData Broken)).1,
           .error alreadyFinishedWrite)) :=
  ⟨rfl, finish_write_error_finalizes (⟨some Broken.pipe, "B"⟩ : FormData Broken)
    Broken.pipe ⟨.brokenPipe, "broken pipe"⟩ "a" "b" rfl rfl⟩

theorem write_header_boundary {σ : Type} [Sink σ] (fd : FormData σ)
    (n : String) (filename contentType : Option String) :
    (write_header fd n filename contentType).1.boundary = fd.boundary := by
  unfold write_header
  cases hw : fd.writer with
  | none => rfl
  | some w =>
    rcases hall : writeAll w ((headerChunks fd.boundary n filename contentType).map bytes)
      with ⟨w2, e⟩
    cases e <;> simp [hall]

theorem write_field_boundary {σ : Type} [Sink σ] (fd : FormData σ)
    (n v : String) : (write_field fd n v).1.boundary = fd.boundary := by
  have hb := write_header_boundary fd n none none
  unfold write_field
  rcases hh : write_header fd n none none with ⟨fd2, exc⟩
  rw [hh] at hb
  simp only [] at hb
  cases exc with
  | error e => simpa using hb
  | ok w =>
    cases hwr : Sink.write w (bytes (v ++ "\r\n")) <;> simp [hwr, hb]

theorem write_file_boundary {σ : Type} [Sink σ] (fd : FormData σ)
    (n : String) (reader : List Nat) (filename : Option String)
    (ct : String) :
    (write_file fd n reader filename ct).1.boundary = fd.boundary := by
  have hb := write_header_boundary fd n filename (some ct)
  unfold write_file
  rcases hh : write_header fd n filename (some ct) with ⟨fd2, exc⟩
  rw [hh] at hb
  simp only [] at hb
  cases exc with
  | error e => simpa using hb
  | ok w =>
    cases hwr : Sink.write w reader with
    | error e => simp [hwr, hb]
    | ok w2 =>
      cases hwr2 : Sink.write w2 (bytes "\r\n") <;> simp [hwr, hwr2, hb]

theorem write_path_boundary {σ : Type} [Sink σ] (fd : FormData σ)
    (n : String) (fs : String → Option (List Nat)) (p ct : String) :
    (write_path fd n fs p ct).1.boundary = fd.boundary := by
  unfold write_path
  cases hfs : fs p with
  | none => rfl
  | some content => exact write_file_boundary fd n content (fileName p) ct

theorem finish_boundary {σ : Type} [Sink σ] (fd : FormData σ) :
    (finish fd).1.boundary = fd.boundary := by
  unfold finish
  cases hw : fd.writer with
  | none => rfl
  | some w =>
    cases hwr : Sink.write w (bytes ("--" ++ fd.boundary ++ "--\r\n")) <;>
      simp [hwr]

/-- Claim C9: `content_type_header` is a pure function of the builder; at
every point in the lifecycle it returns exactly
`multipart/form-data; boundary=` followed by the boundary generated at
construction, and no write operation or `finish` (successful or not)
changes that value. -/
theorem content_type_header_pure {σ : Type} [Sink σ] (fd : FormData σ)
    (n v ct p : String) (filename : Option String) (content : List Nat)
    (fs : String → Option (List Nat)) :
    content_type_header fd = "multipart/form-data; boundary=" ++ fd.boundary
    ∧ content_type_header (write_field fd n v).1 = content_type_header fd
    ∧ content_type_header (write_file fd n content filename ct).1
        = content_type_header fd
    ∧ content_type_header (write_path fd n fs p ct).1
        = content_type_header fd
    ∧ content_type_header (finish fd).1 = content_type_header fd :=
  ⟨rfl,
   by simp [content_type_header, write_field_boundary],
   by simp [content_type_header, write_file_boundary],
   by simp [content_type_header, write_path_boundary],
   by simp [content_type_header, finish_boundary]⟩

/-- Claim C10: an existing path whose final component is not a normal name
(a bare root `/`, or a path ending in `..`) yields no derived filename, so
`write_path` writes the part with no `filename` parameter in its
Content-Disposition header instead of failing. -/
theorem write_path_no_filename (w content : List Nat) (b n ct : String) :
    fileName "/" = none
    ∧ fileName "testdata/.." = none
    ∧ write_path (⟨some w, b⟩ : FormData (List Nat)) n
        (fun _ => some content) "/" ct
      = (⟨some (w
            ++ bytes ("--" ++ b ++ "\r\nContent-Disposition: form-data; name=\"" ++ n
                ++ "\"\r\nContent-Type: " ++ ct ++ "\r\n\r\n")
            ++ content ++ bytes "\r\n"), b⟩, .ok ()) := by
  have hfn : fileName "/" = none := by decide
  refine ⟨hfn, by decide, ?_⟩
  simp [write_path, write_file, write_header, headerChunks, writeAll, hfn,
        bytes, utf8Char, List.append_assoc]

set_option maxRecDepth 16384 in
set_option maxHeartbeats 1600000 in
/-- Claim C1: with the boundary fixed to `B`, the sequence
`write_path "file-a"` (PNG path, `image/png`), `write_field "text-a"
"hello"`, `write_file "file-b"` (SVG bytes, filename `corro.svg`,
`image/svg+xml`), `write_field "text-b" "world"`, then `finish`, appends to
the sink exactly the four parts in call order — each framed as `--B`,
Content-Disposition line (filename and Content-Type lines only for the file
parts), blank line, payload, CRLF — followed by the single terminal marker
`--B--`. -/
theorem end_to_end_wire_format (B : String) (png svg : List Nat) :
    (let fd0 : FormData (List Nat) := ⟨some [], B⟩
     let fs : String → Option (List Nat) := fun p =>
       if p = "testdata/rustacean-flat-noshadow.png" then some png else none
     let s1 := write_path fd0 "file-a" fs
       "testdata/rustacean-flat-noshadow.png" "image/png"
     let s2 := write_field s1.1 "text-a" "hello"
     let s3 := write_file s2.1 "file-b" svg (some "corro.svg")
       "image/svg+xml"
     let s4 := write_field s3.1 "text-b" "world"
     let s5 := finish s4.1
     s1.2 = .ok () ∧ s2.2 = .ok () ∧ s3.2 = .ok () ∧ s4.2 = .ok ()
     ∧ s5 = (⟨none, B⟩,
         .ok (bytes ("--" ++ B
               ++ "\r\nContent-Disposition: form-data; name=\"file-a\"; filename=\"rustacean-flat-noshadow.png\"\r\nContent-Type: image/png\r\n\r\n")
           ++ png
           ++ bytes ("\r\n--" ++ B
               ++ "\r\nContent-Disposition: form-data; name=\"text-a\"\r\n\r\nhello\r\n--"
               ++ B
               ++ "\r\nContent-Disposition: form-data; name=\"file-b\"; filename=\"corro.svg\"\r\nContent-Type: image/svg+xml\r\n\r\n")
           ++ svg
           ++ bytes ("\r\n--" ++ B
               ++ "\r\nContent-Disposition: form-data; name=\"text-b\"\r\n\r\nworld\r\n--"
               ++ B ++ "--\r\n")))) := by
  have hfn : fileName "testdata/rustacean-flat-noshadow.png"
      = some "rustacean-flat-noshadow.png" := by decide
  have h1 : write_path (⟨some [], B⟩ : FormData (List Nat)) "file-a"
      (fun p => if p = "testdata/rustacean-flat-noshadow.png"
                then some png else none)
      "testdata/rustacean-flat-noshadow.png" "image/png"
      = write_file (⟨some [], B⟩ : FormData (List Nat)) "file-a" png
          (some "rustacean-flat-noshadow.png") "image/png" := by
    show write_file (⟨some [], B⟩ : FormData (List Nat)) "file-a" png
      (fileName "testdata/rustacean-flat-noshadow.png") "image/png" = _
    rw [hfn]
  refine ⟨?_, ?_, ?_, ?_, ?_⟩ <;>
    simp [h1, write_file, write_field, write_header, finish,
          headerChunks, writeAll, bytes, utf8Char, List.append_assoc]

end FormDataBuilder
